import Mathlib

/-!
Verification of the Date & Shelf-Life Recognition Engine of the
`Repository-name-expiry-tracker` repository.

The Python source under scrutiny is
`src/github_upload/date_recognizer.py` (pattern-based candidate
extraction, best-candidate selection, expiry-date and remaining-days
arithmetic) and `src/github_upload/ocr_processor.py` (the typed-date
parser `parse_date`).

The date arithmetic of the source is the arithmetic of CPython's
`datetime` module (`datetime(year, month, day)` construction and its
`ValueError` on invalid dates, `date + timedelta(days=k)`,
`(date1 - date2).days`).  Those primitives are embedded below as a
direct port of the pure helper functions of CPython's `datetime.py`
(`_is_leap`, `_days_in_month`, `_days_before_month`,
`_days_before_year`, `_ymd2ord`, `_ord2ymd`), so that every statement
about the Python code is a statement about the very calendar the code
computes with.
-/

deriving instance DecidableEq for Except

namespace ExpiryTracker

/-- A calendar date as carried by Python `datetime.date` /
`datetime.datetime` values: a year, month and day.  The structure
itself carries no validity invariant; validity is the explicit
predicate `isValidDate`, exactly as CPython validates at construction
time. -/
structure Date where
  year : Nat
  month : Nat
  day : Nat
deriving DecidableEq, Repr

/-- CPython `datetime._is_leap`: Gregorian leap-year rule. -/
def isLeapYear (y : Nat) : Bool :=
  y % 4 == 0 && (y % 100 != 0 || y % 400 == 0)

/-- CPython `datetime._days_in_month` (month assumed in 1..12). -/
def daysInMonth (y m : Nat) : Nat :=
  if m == 2 then (if isLeapYear y then 29 else 28)
  else if m == 4 || m == 6 || m == 9 || m == 11 then 30
  else 31

/-- Number of days in year `y` (365 or 366). -/
def daysInYear (y : Nat) : Nat :=
  if isLeapYear y then 366 else 365

/-- CPython `datetime._days_before_month`: days in year `y` strictly
before month `m`, written as the running sum of `daysInMonth` (the
CPython table-plus-leap-adjustment computes the same values for
`m` in 1..12). -/
def daysBeforeMonth (y : Nat) : Nat → Nat
  | 0 => 0
  | 1 => 0
  | m + 2 => daysBeforeMonth y (m + 1) + daysInMonth y (m + 1)

/-- The validity check performed by CPython's `datetime.date` /
`datetime.datetime` constructors: `MINYEAR <= year <= MAXYEAR`,
`1 <= month <= 12`, `1 <= day <= days_in_month(year, month)`.
Construction with values outside these bounds raises `ValueError`. -/
def isValidDate (y m d : Nat) : Bool :=
  1 ≤ y && y ≤ 9999 && 1 ≤ m && m ≤ 12 && 1 ≤ d && d ≤ daysInMonth y m

/-- `datetime(year, month, day)` (and `datetime.date(year, month, day)`):
the validated constructor.  `none` models the `ValueError` raised on an
invalid combination. -/
def mkDate (y m d : Nat) : Option Date :=
  if isValidDate y m d then some ⟨y, m, d⟩ else none

/-- CPython `datetime._days_before_year`:
`y*365 + y//4 - y//100 + y//400` for `y = year - 1`. -/
def daysBeforeYear (year : Nat) : Nat :=
  let y := year - 1
  y * 365 + y / 4 - y / 100 + y / 400

/-- CPython `datetime._ymd2ord` (`date.toordinal`): day number in the
proleptic Gregorian calendar, day 1 = 0001-01-01. -/
def toOrdinal (d : Date) : Nat :=
  daysBeforeYear d.year + daysBeforeMonth d.year d.month + d.day

/-- CPython `_DAYS_BEFORE_MONTH` table (non-leap cumulative days). -/
def DAYS_BEFORE_MONTH_TABLE : Nat → Nat
  | 1 => 0 | 2 => 31 | 3 => 59 | 4 => 90 | 5 => 120 | 6 => 151
  | 7 => 181 | 8 => 212 | 9 => 243 | 10 => 273 | 11 => 304 | 12 => 334
  | _ => 0

/-- CPython `_DAYS_IN_MONTH` table (non-leap month lengths). -/
def DAYS_IN_MONTH_TABLE : Nat → Nat
  | 1 => 31 | 2 => 28 | 3 => 31 | 4 => 30 | 5 => 31 | 6 => 30
  | 7 => 31 | 8 => 31 | 9 => 30 | 10 => 31 | 11 => 30 | 12 => 31
  | _ => 0

/-- CPython `datetime._ord2ymd` (`date.fromordinal`): inverse of
`toOrdinal`, ported statement by statement (`(n + 50) >> 5` is
`(n + 50) / 32`). -/
def ord2ymd (nOrd : Nat) : Date :=
  let n0 := nOrd - 1
  let n400 := n0 / 146097
  let r400 := n0 % 146097
  let n100 := r400 / 36524
  let r100 := r400 % 36524
  let n4 := r100 / 1461
  let r4 := r100 % 1461
  let n1 := r4 / 365
  let n := r4 % 365
  let year := n400 * 400 + 1 + n100 * 100 + n4 * 4 + n1
  if n1 = 4 ∨ n100 = 4 then
    ⟨year - 1, 12, 31⟩
  else
    let leap := n1 == 3 && (n4 != 24 || n100 == 3)
    let month := (n + 50) / 32
    let preceding := DAYS_BEFORE_MONTH_TABLE month + (if 2 < month && leap then 1 else 0)
    if n < preceding then
      let month2 := month - 1
      let preceding2 :=
        preceding - (DAYS_IN_MONTH_TABLE month2 + (if month2 == 2 && leap then 1 else 0))
      ⟨year, month2, n - preceding2 + 1⟩
    else
      ⟨year, month, n - preceding + 1⟩

/-- `date.max.toordinal()`: ordinal of 9999-12-31. -/
def MAXORDINAL : Nat := 3652059

/-- Python `date.__add__(timedelta(days=k))`: convert to ordinal, add,
convert back; out of the ordinal range 1..`MAXORDINAL` an
`OverflowError` is raised, modelled as `none`. -/
def addDays (d : Date) (days : Int) : Option Date :=
  let o : Int := (toOrdinal d : Int) + days
  if 0 < o ∧ o ≤ (MAXORDINAL : Int) then some (ord2ymd o.toNat) else none

/-- Python truthiness of an optional integer argument defaulting to
`None`: `None` and `0` are falsy, every other integer is truthy. -/
def pyTruthy : Option Int → Bool
  | none => false
  | some n => n != 0

/-- `DateRecognizer.calculate_expiry_date(production_date,
shelf_life_months=None, shelf_life_days=None)`
(src/github_upload/date_recognizer.py, lines 217-234):

`if shelf_life_months:` add `shelf_life_months * 30` days;
`elif shelf_life_days:` add `shelf_life_days` days;
`else` add the default 180 days.  The surrounding
`try/except Exception: return None` catches the `OverflowError` of an
out-of-range date addition, which `addDays` already renders as `none`. -/
def calculate_expiry_date (production_date : Date)
    (shelf_life_months shelf_life_days : Option Int) : Option Date :=
  if pyTruthy shelf_life_months then
    addDays production_date (shelf_life_months.getD 0 * 30)
  else if pyTruthy shelf_life_days then
    addDays production_date (shelf_life_days.getD 0)
  else
    addDays production_date 180

/-- The Python value passed to `get_days_remaining` as `expiry_date`.
The code accepts a `datetime.datetime` (converted with `.date()`), a
`datetime.date` (used as is), or anything else — for which the
subtraction `expiry_date - today` raises a `TypeError`. -/
inductive PyDateVal where
  | date (d : Date)
  | datetime (d : Date)
  | other
deriving DecidableEq, Repr

/-- The `try:` block of `DateRecognizer.get_days_remaining`
(src/github_upload/date_recognizer.py, lines 238-244): coerce a
`datetime` to a `date`, then `(expiry_date - today).days`, which for
Python dates is `expiry_date.toordinal() - today.toordinal()`.  `today`
is `datetime.now().date()`, ambient wall-clock state of the call,
passed here explicitly.  The `.error` value models the exception
raised on a non-date argument. -/
def days_remaining_try (expiry : PyDateVal) (today : Date) : Except String Int :=
  match expiry with
  | .date d => .ok ((toOrdinal d : Int) - (toOrdinal today : Int))
  | .datetime d => .ok ((toOrdinal d : Int) - (toOrdinal today : Int))
  | .other => .error "TypeError"

/-- `DateRecognizer.get_days_remaining(expiry_date)`
(src/github_upload/date_recognizer.py, lines 236-248): the `try:` body
above, with `except Exception: return 0`. -/
def get_days_remaining (expiry : PyDateVal) (today : Date) : Int :=
  match days_remaining_try expiry today with
  | .ok n => n
  | .error _ => 0

/-- The nine regular expressions of
`DateRecognizer.parse_date_patterns` (src/github_upload/date_recognizer.py,
lines 114-128), in their source order. -/
inductive PatternId where
  | chineseFull       -- (\d{4})年(\d{1,2})月(\d{1,2})日
  | chineseYearMonth  -- (\d{4})年(\d{1,2})月
  | numericFull       -- (\d{4})[-./](\d{1,2})[-./](\d{1,2})
  | numericYearMonth  -- (\d{4})[-./](\d{1,2})
  | prodLabelColon    -- 生产日期[：:](\d{4})[-./年](\d{1,2})[-./月](\d{1,2})
  | prodLabel         -- 生产[：:]*(\d{4})[-./年](\d{1,2})[-./月](\d{1,2})
  | manuLabel         -- 制造日期[：:](\d{4})[-./年](\d{1,2})[-./月](\d{1,2})
  | shelfLifeMonths   -- 保质期[：:](\d{1,2})[个]*月
  | shelfLifeUntil    -- 保质期至[：:]*(\d{4})[-./年](\d{1,2})[-./月](\d{1,2})
deriving DecidableEq, Repr

/-- The pattern list in its declared order. -/
def patterns : List PatternId :=
  [.chineseFull, .chineseYearMonth, .numericFull, .numericYearMonth,
   .prodLabelColon, .prodLabel, .manuLabel, .shelfLifeMonths, .shelfLifeUntil]

/-- Number of capturing groups of each pattern's regex. -/
def groupCount : PatternId → Nat
  | .chineseYearMonth => 2
  | .numericYearMonth => 2
  | .shelfLifeMonths => 1
  | _ => 3

/-- Whether the pattern's regex carries an explicit semantic label
prefix (生产日期 / 生产 / 制造日期 / 保质期至), as opposed to a bare
numeric date pattern. -/
def hasSemanticLabel : PatternId → Bool
  | .prodLabelColon => true
  | .prodLabel => true
  | .manuLabel => true
  | .shelfLifeUntil => true
  | _ => false

/-- One element of the list returned by `re.findall(pattern, text)`.
Every capturing group of the patterns above is a `\d...` group, so a
captured group is a digit string, modelled as its list of digit values
(each < 10, most significant first).

For a regex with two or more groups `re.findall` yields a tuple of the
group strings (`tuple`); for a regex with exactly one group it yields
the group string itself (`str`) — a distinction with teeth, because the
source then takes `len(match)` and iterates `match`, which for a string
counts and yields its characters. -/
inductive PyMatch where
  | tuple (gs : List (List Nat))
  | str (s : List Nat)
deriving DecidableEq, Repr

/-- `int(...)` on a captured digit string: its decimal value. -/
def pyIntOfDigits (ds : List Nat) : Nat :=
  ds.foldl (fun a d => 10 * a + d) 0

/-- `list(map(int, match))` as executed by the source on a findall
result: for a tuple, `int` of each group string; for a string (the
single-group case), iteration yields the characters, and `int` of a
one-character digit string is its digit value.  The length of this
list is exactly the `len(match)` the source dispatches on. -/
def matchInts : PyMatch → List Nat
  | .tuple gs => gs.map pyIntOfDigits
  | .str s => s

/-- The `type` field of a recognition-result dict. -/
inductive RecordType where
  | production_date
  | shelf_life
deriving DecidableEq, Repr

/-- The dict appended to `dates` in
`DateRecognizer.parse_date_patterns` (keys `date`,
`shelf_life_months`, `type`, `text`, `confidence`).  Confidences are
the float literals 0.8 / 0.6 / 0.7 of the source, carried as exact
rationals. -/
structure DateInfo where
  date : Option Date
  shelf_life_months : Option Nat
  type : RecordType
  text : String
  confidence : ℚ
deriving DecidableEq, Repr

/-- The match-processing body of `DateRecognizer.parse_date_patterns`
(src/github_upload/date_recognizer.py, lines 133-163) for a single
findall result `m` found in fragment `text`:

* `len(match) == 3`: `year, month, day = map(int, match)`;
  `datetime(year, month, day)`; append a `production_date` dict with
  confidence 0.8;
* `len(match) == 2`: `year, month = map(int, match)`;
  `datetime(year, month, 1)`; append a `production_date` dict with
  confidence 0.6;
* `len(match) == 1`: `int(match[0])`; append a `shelf_life` dict with
  confidence 0.7;
* the `except ValueError: continue` around the body drops the match
  when `datetime` rejects the combination — modelled by `none`. -/
def candidate_of_match (text : String) (m : PyMatch) : Option DateInfo :=
  match matchInts m with
  | [y, mo, d] =>
      (mkDate y mo d).map fun dt =>
        { date := some dt, shelf_life_months := none,
          type := .production_date, text := text, confidence := Rat.mk' 4 5 }
  | [y, mo] =>
      (mkDate y mo 1).map fun dt =>
        { date := some dt, shelf_life_months := none,
          type := .production_date, text := text, confidence := Rat.mk' 3 5 }
  | [n] =>
      some { date := none, shelf_life_months := some n,
             type := .shelf_life, text := text, confidence := Rat.mk' 7 10 }
  | _ => none

/-- Shape of the values `re.findall` can actually hand the loop body
for a given pattern: the single-group pattern (保质期…月, `\d{1,2}`)
yields a one-or-two-digit string; a two-group pattern yields a
`(\d{4}, \d{1,2})` tuple; a three-group pattern a
`(\d{4}, \d{1,2}, \d{1,2})` tuple.  Digit values are < 10. -/
def groupWF (g : List Nat) (lo hi : Nat) : Bool :=
  lo ≤ g.length && g.length ≤ hi && g.all (· < 10)

/-- Well-formedness of a findall result for a pattern (see `groupWF`). -/
def findallWF : PatternId → PyMatch → Bool
  | .shelfLifeMonths, .str s => groupWF s 1 2
  | .chineseYearMonth, .tuple [y, m] => groupWF y 4 4 && groupWF m 1 2
  | .numericYearMonth, .tuple [y, m] => groupWF y 4 4 && groupWF m 1 2
  | p, .tuple [y, m, d] =>
      groupCount p == 3 && groupWF y 4 4 && groupWF m 1 2 && groupWF d 1 2
  | _, _ => false

/-- `DateRecognizer.parse_date_patterns(texts)`
(src/github_upload/date_recognizer.py, lines 109-165): for each text,
for each pattern in order, for each findall result, process the match
and append the resulting dict.  The `re.findall` calls themselves are
the untranslated primitive; their per-pattern results are supplied
alongside each text. -/
def parse_date_patterns (texts : List (String × (PatternId → List PyMatch))) :
    List DateInfo :=
  texts.foldl
    (fun dates tf =>
      patterns.foldl
        (fun dates p =>
          (tf.2 p).foldl
            (fun dates m =>
              match candidate_of_match tf.1 m with
              | some c => dates ++ [c]
              | none => dates)
            dates)
        dates)
    []

/-- `max(dates, key=lambda x: x.get('confidence', 0))` in
`DateRecognizer.recognize_date` (src/github_upload/date_recognizer.py,
line 208), guarded by `if not dates: return None`.  Python `max`
scans left to right and replaces the running best only on a strictly
larger key, so the first element attaining the maximum wins. -/
def select_best_date (dates : List DateInfo) : Option DateInfo :=
  match dates with
  | [] => none
  | x :: xs =>
      some (xs.foldl (fun best y => if best.confidence < y.confidence then y else best) x)

/-! ## The typed-date parser `OCRProcessor.parse_date`
(src/github_upload/ocr_processor.py, lines 286-331)

The source tries ten `datetime.datetime.strptime` formats in order and
then falls back to a digit-group heuristic.  CPython's `_strptime`
compiles each `%`-directive to a regular expression — `%Y` to
`\d\d\d\d`, `%m` to `1[0-2]|0[1-9]|[1-9]`, `%d` to
`3[01]|[12]\d|0[1-9]|[1-9]` — requires the whole input to be consumed,
and finally constructs the date (raising `ValueError` on an invalid
combination).  `runFmt` below executes exactly that compiled regex,
including the left-to-right alternation order (both two-digit
alternatives precede the one-digit `[1-9]`) and backtracking. -/

/-- One token of a compiled strptime format string. -/
inductive FmtTok where
  | year4          -- %Y, compiled to \d\d\d\d
  | month2         -- %m, compiled to 1[0-2]|0[1-9]|[1-9]
  | day2           -- %d, compiled to 3[01]|[12]\d|0[1-9]|[1-9]
  | lit (c : Char) -- a literal character of the format
deriving DecidableEq, Repr

/-- Numeric value of a decimal digit character. -/
def charVal (c : Char) : Nat := c.toNat - 48

/-- The two-character alternatives `1[0-2]|0[1-9]` of `%m`. -/
def month2ok (a b : Char) : Bool :=
  (a = '1' && (b = '0' || b = '1' || b = '2')) ||
  (a = '0' && b.isDigit && b ≠ '0')

/-- The two-character alternatives `3[01]|[12]\d|0[1-9]` of `%d`. -/
def day2ok (a b : Char) : Bool :=
  (a = '3' && (b = '0' || b = '1')) ||
  ((a = '1' || a = '2') && b.isDigit) ||
  (a = '0' && b.isDigit && b ≠ '0')

/-- The one-character alternative `[1-9]` of `%m` and `%d`. -/
def digit1ok (a : Char) : Bool := a.isDigit && a ≠ '0'

/-- Run a compiled format against the input characters, accumulating
`(year, month, day)` (strptime's defaults are 1900-01-01; every format
of the source sets all three).  Two-digit alternatives are tried
before the one-digit one, with backtracking on failure of the rest of
the match, exactly as the compiled regex behaves; the match must
consume the whole input. -/
def runFmt : List FmtTok → List Char → Nat × Nat × Nat → Option (Nat × Nat × Nat)
  | [], [], acc => some acc
  | [], _ :: _, _ => none
  | .lit _ :: _, [], _ => none
  | .lit c :: ts, x :: xs, acc => if x = c then runFmt ts xs acc else none
  | .year4 :: ts, a :: b :: c :: d :: xs, (_, mo, dy) =>
      if a.isDigit && b.isDigit && c.isDigit && d.isDigit then
        runFmt ts xs
          (charVal a * 1000 + charVal b * 100 + charVal c * 10 + charVal d, mo, dy)
      else none
  | .year4 :: _, _, _ => none
  | .month2 :: ts, a :: b :: xs, (y, _, dy) =>
      (if month2ok a b then runFmt ts xs (y, charVal a * 10 + charVal b, dy) else none).orElse
        fun _ => if digit1ok a then runFmt ts (b :: xs) (y, charVal a, dy) else none
  | .month2 :: ts, [a], (y, _, dy) =>
      if digit1ok a then runFmt ts [] (y, charVal a, dy) else none
  | .month2 :: _, [], _ => none
  | .day2 :: ts, a :: b :: xs, (y, mo, _) =>
      (if day2ok a b then runFmt ts xs (y, mo, charVal a * 10 + charVal b) else none).orElse
        fun _ => if digit1ok a then runFmt ts (b :: xs) (y, mo, charVal a) else none
  | .day2 :: ts, [a], (y, mo, _) =>
      if digit1ok a then runFmt ts [] (y, mo, charVal a)  else none
  | .day2 :: _, [], _ => none

/-- `datetime.datetime.strptime(date_text, fmt).date()`: run the
compiled format and construct the date, `none` for the `ValueError` of
a failed match or an invalid combination. -/
def strptime (fmt : List FmtTok) (s : String) : Option Date :=
  match runFmt fmt s.data (1900, 1, 1) with
  | some (y, m, d) => mkDate y m d
  | none => none

/-- The ten formats of `OCRProcessor.parse_date` in source order:
`%Y-%m-%d`, `%Y/%m/%d`, `%Y.%m.%d`, `%Y年%m月%d日`, `%d-%m-%Y`,
`%d/%m/%Y`, `%d.%m.%Y`, `%m-%d-%Y`, `%m/%d/%Y`, `%m.%d.%Y`. -/
def strptime_formats : List (List FmtTok) :=
  [ [.year4, .lit '-', .month2, .lit '-', .day2]
  , [.year4, .lit '/', .month2, .lit '/', .day2]
  , [.year4, .lit '.', .month2, .lit '.', .day2]
  , [.year4, .lit '年', .month2, .lit '月', .day2, .lit '日']
  , [.day2, .lit '-', .month2, .lit '-', .year4]
  , [.day2, .lit '/', .month2, .lit '/', .year4]
  , [.day2, .lit '.', .month2, .lit '.', .year4]
  , [.month2, .lit '-', .day2, .lit '-', .year4]
  , [.month2, .lit '/', .day2, .lit '/', .year4]
  , [.month2, .lit '.', .day2, .lit '.', .year4] ]

/-- The `for fmt in formats:` loop: first successful format wins. -/
def tryFormats (fmts : List (List FmtTok)) (s : String) : Option Date :=
  match fmts with
  | [] => none
  | f :: fs =>
      match strptime f s with
      | some d => some d
      | none => tryFormats fs s

/-- `re.findall(r"\d+", date_text)`: the maximal runs of decimal digit
characters of the text, left to right (accumulator form). -/
def digitRunsAux : List Char → List Char → List (List Char)
  | [], cur => if cur.isEmpty then [] else [cur.reverse]
  | c :: cs, cur =>
      if c.isDigit then digitRunsAux cs (c :: cur)
      else if cur.isEmpty then digitRunsAux cs []
      else cur.reverse :: digitRunsAux cs []

/-- `re.findall(r"\d+", date_text)`. -/
def digitRuns (cs : List Char) : List (List Char) := digitRunsAux cs []

/-- `int(...)` of a run of digit characters. -/
def pyIntOfChars (cs : List Char) : Nat :=
  cs.foldl (fun a c => 10 * a + charVal c) 0

/-- `OCRProcessor.parse_date(date_text)`
(src/github_upload/ocr_processor.py, lines 286-331): try the ten
strptime formats in order; if all fail, extract the digit groups, and
with at least three of them take the first group as the year if it has
four digits (day then third group), otherwise the third group as the
year (day then first group), the second group always the month; an
invalid combination or fewer than three groups raises
`ValueError("无法解析日期: ...")`, modelled as `.error`. -/
def parse_date (s : String) : Except String Date :=
  match tryFormats strptime_formats s with
  | some d => .ok d
  | none =>
      let numbers := digitRuns s.data
      if h3 : 3 ≤ numbers.length then
        let n0 := numbers.get ⟨0, by omega⟩
        let n1 := numbers.get ⟨1, by omega⟩
        let n2 := numbers.get ⟨2, by omega⟩
        let year := if n0.length = 4 then pyIntOfChars n0 else pyIntOfChars n2
        let month := pyIntOfChars n1
        let day := if n0.length = 4 then pyIntOfChars n2 else pyIntOfChars n0
        match mkDate year month day with
        | some d => .ok d
        | none => .error ("无法解析日期: " ++ s)
      else .error ("无法解析日期: " ++ s)

/-! ## The f-string `f"{year}-{month:02d}-{day:02d}"` -/

/-- Decimal digits of `n`, most significant first (`str(n)`), in a
fuel-driven form the kernel can evaluate; `natDecimalDigits` supplies
enough fuel, and `natDecimalDigitsGo_spec` identifies the result with
the direct recursion `decimalDigitsSpec`. -/
def natDecimalDigitsGo : Nat → Nat → List Nat → List Nat
  | 0, n, acc => n % 10 :: acc
  | fuel + 1, n, acc =>
      if n < 10 then n :: acc
      else natDecimalDigitsGo fuel (n / 10) (n % 10 :: acc)

/-- Decimal digits of `n`, most significant first (`str(n)`). -/
def natDecimalDigits (n : Nat) : List Nat := natDecimalDigitsGo n n []

/-- The same digits by direct recursion, for reasoning. -/
def decimalDigitsSpec (n : Nat) : List Nat :=
  if _h : n < 10 then [n] else decimalDigitsSpec (n / 10) ++ [n % 10]
decreasing_by exact Nat.div_lt_self (by omega) (by omega)

/-- Digits of `n` under the `02d` format: zero-padded to width two. -/
def pad2 (n : Nat) : List Nat :=
  if n < 10 then [0, n] else natDecimalDigits n

/-- Digit values rendered as characters. -/
def digitsToChars (ds : List Nat) : List Char := ds.map Nat.digitChar

/-- `f"{year}-{month:02d}-{day:02d}"`. -/
def isoFormat (y m d : Nat) : String :=
  ⟨digitsToChars (natDecimalDigits y) ++ '-' :: digitsToChars (pad2 m) ++
    '-' :: digitsToChars (pad2 d)⟩

/-- Validity of a `Date` value (see `isValidDate`). -/
def validDate (d : Date) : Bool := isValidDate d.year d.month d.day

/-- Chronological order of two dates, field by field: `a` is an
earlier calendar date than `b`. -/
def dateLexLt (a b : Date) : Prop :=
  a.year < b.year ∨
    (a.year = b.year ∧
      (a.month < b.month ∨ (a.month = b.month ∧ a.day < b.day)))

instance (a b : Date) : Decidable (dateLexLt a b) := by
  unfold dateLexLt; infer_instance

/-! ## Calendar lemmas: the day ordinal is strictly monotone in the
chronological order of valid dates -/

theorem daysBeforeMonth_succ_eq (y m : Nat) (hm : 1 ≤ m) :
    daysBeforeMonth y (m + 1) = daysBeforeMonth y m + daysInMonth y m := by
  obtain ⟨k, rfl⟩ : ∃ k, m = k + 1 := ⟨m - 1, by omega⟩
  rfl

theorem daysBeforeMonth_le_succ (y k : Nat) :
    daysBeforeMonth y k ≤ daysBeforeMonth y (k + 1) := by
  rcases Nat.eq_zero_or_pos k with rfl | hpos
  · simp [daysBeforeMonth]
  · rw [daysBeforeMonth_succ_eq y k hpos]; omega

theorem daysBeforeMonth_mono (y : Nat) :
    ∀ m1 m2, m1 ≤ m2 → daysBeforeMonth y m1 ≤ daysBeforeMonth y m2 := by
  intro m1 m2 h
  induction m2 with
  | zero =>
      have hm : m1 = 0 := by omega
      rw [hm]
  | succ k ih =>
      rcases Nat.eq_or_lt_of_le h with heq | hlt
      · rw [heq]
      · exact Nat.le_trans (ih (by omega)) (daysBeforeMonth_le_succ y k)

theorem daysBeforeMonth_thirteen (y : Nat) : daysBeforeMonth y 13 = daysInYear y := by
  have h : daysBeforeMonth y 13 =
      0 + 31 + (if isLeapYear y then 29 else 28) +
        31 + 30 + 31 + 30 + 31 + 31 + 30 + 31 + 30 + 31 := rfl
  rw [h, daysInYear]
  cases isLeapYear y <;> norm_num

theorem daysBeforeMonth_add_daysInMonth_le (y m : Nat) (h1 : 1 ≤ m) (h2 : m ≤ 12) :
    daysBeforeMonth y m + daysInMonth y m ≤ daysInYear y := by
  rw [← daysBeforeMonth_succ_eq y m h1, ← daysBeforeMonth_thirteen y]
  exact daysBeforeMonth_mono y (m + 1) 13 (by omega)

set_option maxHeartbeats 1600000 in
theorem daysBeforeYear_succ_eq (y : Nat) (hy : 1 ≤ y) :
    daysBeforeYear (y + 1) = daysBeforeYear y + daysInYear y := by
  obtain ⟨n, rfl⟩ : ∃ n, y = n + 1 := ⟨y - 1, by omega⟩
  show (n+1) * 365 + (n+1) / 4 - (n+1) / 100 + (n+1) / 400 =
    (n * 365 + n / 4 - n / 100 + n / 400) + daysInYear (n + 1)
  rw [daysInYear]
  by_cases hleap : isLeapYear (n + 1) = true
  · rw [if_pos hleap]
    have hm := hleap
    simp only [isLeapYear, Bool.and_eq_true, Bool.or_eq_true, beq_iff_eq, bne_iff_ne,
      ne_eq] at hm
    omega
  · rw [if_neg hleap]
    have hm : ¬((n+1) % 4 = 0 ∧ ((n+1) % 100 ≠ 0 ∨ (n+1) % 400 = 0)) := by
      intro hc
      apply hleap
      simp only [isLeapYear, Bool.and_eq_true, Bool.or_eq_true, beq_iff_eq, bne_iff_ne, ne_eq]
      exact hc
    omega

theorem daysInYear_ge (y : Nat) : 365 ≤ daysInYear y := by
  rw [daysInYear]; split <;> omega

theorem daysBeforeYear_mono (y1 y2 : Nat) (h1 : 1 ≤ y1) (h : y1 ≤ y2) :
    daysBeforeYear y1 ≤ daysBeforeYear y2 := by
  induction y2 with
  | zero => exact absurd h (by omega)
  | succ k ih =>
      rcases Nat.eq_or_lt_of_le h with heq | hlt
      · rw [heq]
      · have hk1 : 1 ≤ k := by omega
        have hstep := daysBeforeYear_succ_eq k hk1
        have hle := ih (by omega)
        omega

theorem toOrdinal_strict_mono (a b : Date)
    (ha : validDate a = true) (hb : validDate b = true) (hlt : dateLexLt a b) :
    toOrdinal a < toOrdinal b := by
  simp only [validDate, isValidDate, Bool.and_eq_true, decide_eq_true_eq] at ha hb
  obtain ⟨⟨⟨⟨⟨hay1, hay2⟩, ham1⟩, ham2⟩, had1⟩, had2⟩ := ha
  obtain ⟨⟨⟨⟨⟨hby1, hby2⟩, hbm1⟩, hbm2⟩, hbd1⟩, hbd2⟩ := hb
  have hoff_a : daysBeforeMonth a.year a.month + a.day ≤ daysInYear a.year := by
    have := daysBeforeMonth_add_daysInMonth_le a.year a.month ham1 ham2
    omega
  rw [toOrdinal, toOrdinal]
  rcases hlt with hy | ⟨hyeq, hm | ⟨hmeq, hd⟩⟩
  · have hstep := daysBeforeYear_succ_eq a.year hay1
    have hmono := daysBeforeYear_mono (a.year + 1) b.year (by omega) (by omega)
    omega
  · rw [hyeq]
    have hstep := daysBeforeMonth_succ_eq b.year a.month ham1
    have hmono : daysBeforeMonth b.year (a.month + 1) ≤ daysBeforeMonth b.year b.month :=
      daysBeforeMonth_mono b.year (a.month + 1) b.month (by omega)
    have : a.day ≤ daysInMonth b.year a.month := by rw [← hyeq]; exact had2
    omega
  · rw [hyeq, hmeq]; omega

/-! ## Digit-rendering lemmas for the f-string -/

theorem natDecimalDigitsGo_spec :
    ∀ fuel n acc, n ≤ fuel →
      natDecimalDigitsGo fuel n acc = decimalDigitsSpec n ++ acc := by
  intro fuel
  induction fuel with
  | zero =>
      intro n acc h
      interval_cases n
      simp [natDecimalDigitsGo, decimalDigitsSpec]
  | succ k ih =>
      intro n acc h
      by_cases h10 : n < 10
      · simp [natDecimalDigitsGo, h10, decimalDigitsSpec]
      · have h1 : natDecimalDigitsGo (k + 1) n acc =
            natDecimalDigitsGo k (n / 10) (n % 10 :: acc) := by
          simp [natDecimalDigitsGo, h10]
        rw [h1, ih (n / 10) (n % 10 :: acc) (by omega)]
        conv_rhs => rw [decimalDigitsSpec]
        simp [h10]

theorem natDecimalDigits_eq_spec (n : Nat) :
    natDecimalDigits n = decimalDigitsSpec n := by
  rw [natDecimalDigits, natDecimalDigitsGo_spec n n [] (Nat.le_refl n), List.append_nil]

theorem decimalDigitsSpec_four (y : Nat) (h1 : 1000 ≤ y) (h2 : y ≤ 9999) :
    decimalDigitsSpec y = [y / 1000, y / 100 % 10, y / 10 % 10, y % 10] := by
  rw [decimalDigitsSpec]; rw [dif_neg (by omega)]
  rw [decimalDigitsSpec]; rw [dif_neg (by omega)]
  rw [decimalDigitsSpec]; rw [dif_neg (by omega)]
  rw [decimalDigitsSpec]; rw [dif_pos (by omega)]
  have e1 : y / 10 / 10 = y / 100 := by omega
  have e2 : y / 10 / 10 / 10 = y / 1000 := by omega
  rw [e2, e1]
  simp

theorem pad2_eq (n : Nat) (h : n ≤ 99) : pad2 n = [n / 10, n % 10] := by
  by_cases h10 : n < 10
  · rw [pad2, if_pos h10]
    have e1 : n / 10 = 0 := by omega
    have e2 : n % 10 = n := by omega
    rw [e1, e2]
  · rw [pad2, if_neg h10, natDecimalDigits_eq_spec]
    rw [decimalDigitsSpec]; rw [dif_neg h10]
    rw [decimalDigitsSpec]; rw [dif_pos (by omega)]
    rfl

theorem isDigit_digitChar (k : Nat) (h : k < 10) : (Nat.digitChar k).isDigit = true := by
  interval_cases k <;> decide

theorem charVal_digitChar (k : Nat) (h : k < 10) : charVal (Nat.digitChar k) = k := by
  interval_cases k <;> decide

theorem month2ok_digits (m : Nat) (h1 : 1 ≤ m) (h2 : m ≤ 12) :
    month2ok (Nat.digitChar (m / 10)) (Nat.digitChar (m % 10)) = true := by
  interval_cases m <;> decide

theorem day2ok_digits (d : Nat) (h1 : 1 ≤ d) (h2 : d ≤ 31) :
    day2ok (Nat.digitChar (d / 10)) (Nat.digitChar (d % 10)) = true := by
  interval_cases d <;> decide

theorem daysInMonth_le_31 (y m : Nat) : daysInMonth y m ≤ 31 := by
  rw [daysInMonth]
  split
  · split <;> omega
  · split <;> omega

/-! ## The parser only ever produces calendar-valid dates -/

theorem mkDate_some_valid (y m d : Nat) (dt : Date) (h : mkDate y m d = some dt) :
    dt = ⟨y, m, d⟩ ∧ isValidDate y m d = true := by
  rw [mkDate] at h
  by_cases hv : isValidDate y m d = true
  · rw [if_pos hv] at h
    exact ⟨(Option.some_inj.mp h).symm, hv⟩
  · rw [if_neg hv] at h
    cases h

theorem strptime_some_valid (f : List FmtTok) (s : String) (dt : Date)
    (h : strptime f s = some dt) : validDate dt = true := by
  rw [strptime] at h
  rcases hr : runFmt f s.data (1900, 1, 1) with _ | ⟨⟨y, m, d⟩⟩
  · rw [hr] at h; cases h
  · rw [hr] at h
    obtain ⟨rfl, hv⟩ := mkDate_some_valid y m d dt h
    exact hv

theorem tryFormats_some_valid (fmts : List (List FmtTok)) (s : String) (dt : Date)
    (h : tryFormats fmts s = some dt) : validDate dt = true := by
  induction fmts with
  | nil => rw [tryFormats] at h; cases h
  | cons f fs ih =>
      rw [tryFormats] at h
      rcases hf : strptime f s with _ | d1
      · rw [hf] at h; exact ih h
      · rw [hf] at h
        cases h
        exact strptime_some_valid f s _ hf

theorem parse_date_ok_valid (s : String) (dt : Date)
    (h : parse_date s = .ok dt) : validDate dt = true := by
  rw [parse_date] at h
  split at h
  next d1 heq =>
    cases h
    exact tryFormats_some_valid strptime_formats s _ heq
  next =>
    dsimp only at h
    split at h
    · split at h
      next d2 hmk =>
        cases h
        obtain ⟨rfl, hv⟩ := mkDate_some_valid _ _ _ _ hmk
        exact hv
      next => exact Except.noConfusion h
    · exact Except.noConfusion h

/-! ## Claims -/

/-- Claim C1 (counterexample).  The claim says `shelfLifeDays` takes
precedence over `shelfLifeMonths`, so with `production = 2024-01-15`,
`shelfLifeMonths = 12` and `shelfLifeDays = 10` the result should be
`production + 10 days = 2024-01-25`; the code tests
`if shelf_life_months:` first and instead returns
`production + 360 days = 2025-01-09`. -/
theorem C1_counterexample :
    calculate_expiry_date ⟨2024, 1, 15⟩ (some 12) (some 10) = some ⟨2025, 1, 9⟩ ∧
    addDays ⟨2024, 1, 15⟩ 10 = some ⟨2024, 1, 25⟩ ∧
    ¬ calculate_expiry_date ⟨2024, 1, 15⟩ (some 12) (some 10) =
        addDays ⟨2024, 1, 15⟩ 10 := by
  decide

/-- Claim C1 (amended).  `calculate_expiry_date` gives
`shelfLifeMonths` precedence over `shelfLifeDays` (the reverse of the
claimed order): with a truthy `shelf_life_months` the result is
`production + 30 × months` days even if `shelf_life_days` is also
present; `shelf_life_days` is used only when `shelf_life_months` is
falsy; and when both are falsy the default of 180 days applies. -/
theorem C1_months_take_precedence (p : Date) (m d : Option Int) :
    (pyTruthy m = true →
      calculate_expiry_date p m d = addDays p (m.getD 0 * 30)) ∧
    (pyTruthy m = false → pyTruthy d = true →
      calculate_expiry_date p m d = addDays p (d.getD 0)) ∧
    (pyTruthy m = false → pyTruthy d = false →
      calculate_expiry_date p m d = addDays p 180) := by
  refine ⟨fun hm => ?_, fun hm hd => ?_, fun hm hd => ?_⟩
  · simp [calculate_expiry_date, hm]
  · simp [calculate_expiry_date, hm, hd]
  · simp [calculate_expiry_date, hm, hd]

/-- Claim C1 (witness for the amended theorem). -/
theorem C1_months_take_precedence_witness :
    calculate_expiry_date ⟨2024, 1, 15⟩ (some 12) (some 10) =
      addDays ⟨2024, 1, 15⟩ (12 * 30) ∧
    calculate_expiry_date ⟨2024, 1, 15⟩ none (some 10) = addDays ⟨2024, 1, 15⟩ 10 ∧
    calculate_expiry_date ⟨2024, 1, 15⟩ none none = addDays ⟨2024, 1, 15⟩ 180 :=
  ⟨(C1_months_take_precedence ⟨2024, 1, 15⟩ (some 12) (some 10)).1 (by decide),
   (C1_months_take_precedence ⟨2024, 1, 15⟩ none (some 10)).2.1 (by decide) (by decide),
   (C1_months_take_precedence ⟨2024, 1, 15⟩ none none).2.2 (by decide) (by decide)⟩

/-- Claim C3 (counterexample).  The general `30 × months` rule holds,
but the claimed concrete value is wrong: `2024-01-15 + 360 days` is
`2025-01-09`, not `2025-01-10` (2024 is a leap year, so the 360-day
span crosses February 29th). -/
theorem C3_counterexample :
    calculate_expiry_date ⟨2024, 1, 15⟩ (some 12) none = some ⟨2025, 1, 9⟩ ∧
    (⟨2025, 1, 9⟩ : Date) ≠ ⟨2025, 1, 10⟩ := by
  decide

/-- Claim C3 (amended).  For every production date and every positive
`shelfLifeMonths` (no days, no explicit expiry), the code returns
`production + 30 × months` days — the fixed 30-day-month
approximation — and in particular `production = 2024-01-15` with
`shelfLifeMonths = 12` yields `2025-01-09`. -/
theorem C3_thirty_day_months (p : Date) (m : Int) (hm : 0 < m) :
    calculate_expiry_date p (some m) none = addDays p (m * 30) ∧
    calculate_expiry_date ⟨2024, 1, 15⟩ (some 12) none = some ⟨2025, 1, 9⟩ := by
  constructor
  · have ht : pyTruthy (some m) = true := by
      simp only [pyTruthy, bne_iff_ne, ne_eq]
      omega
    simp [calculate_expiry_date, ht]
  · decide

/-- Claim C3 (witness for the amended theorem). -/
theorem C3_thirty_day_months_witness :
    calculate_expiry_date ⟨2024, 1, 15⟩ (some 12) none =
      addDays ⟨2024, 1, 15⟩ (12 * 30) ∧
    calculate_expiry_date ⟨2024, 1, 15⟩ (some 12) none = some ⟨2025, 1, 9⟩ :=
  C3_thirty_day_months ⟨2024, 1, 15⟩ 12 (by decide)

/-- Claim C9: passing `shelf_life_months = 0` or `shelf_life_days = 0`
is treated as absent by Python truthiness, so the 180-day default
applies — `computeExpiry(production, 0, 0)` is `production + 180 days`
(`2024-01-15` gives `2024-07-13`), not `production + 0 days`
(`2024-01-15`). -/
theorem C9_zero_shelf_life_treated_as_absent (p : Date) :
    calculate_expiry_date p (some 0) (some 0) = addDays p 180 ∧
    calculate_expiry_date p (some 0) none = addDays p 180 ∧
    calculate_expiry_date p none (some 0) = addDays p 180 ∧
    calculate_expiry_date ⟨2024, 1, 15⟩ (some 0) (some 0) = some ⟨2024, 7, 13⟩ ∧
    addDays ⟨2024, 1, 15⟩ 0 = some ⟨2024, 1, 15⟩ := by
  refine ⟨?_, ?_, ?_, by decide, by decide⟩ <;>
    simp [calculate_expiry_date, pyTruthy]

/-- Claim C9 (witness). -/
theorem C9_zero_shelf_life_treated_as_absent_witness :
    calculate_expiry_date ⟨2024, 1, 15⟩ (some 0) (some 0) =
        addDays ⟨2024, 1, 15⟩ 180 ∧
    calculate_expiry_date ⟨2024, 1, 15⟩ (some 0) none = addDays ⟨2024, 1, 15⟩ 180 ∧
    calculate_expiry_date ⟨2024, 1, 15⟩ none (some 0) = addDays ⟨2024, 1, 15⟩ 180 ∧
    calculate_expiry_date ⟨2024, 1, 15⟩ (some 0) (some 0) = some ⟨2024, 7, 13⟩ ∧
    addDays ⟨2024, 1, 15⟩ 0 = some ⟨2024, 1, 15⟩ :=
  C9_zero_shelf_life_treated_as_absent ⟨2024, 1, 15⟩

/-- Claim C10: `get_days_remaining` never propagates an exception —
when the `try:` body raises (a non-date argument), the handler returns
the integer `0`, which is exactly the value a genuinely
expiring-today expiry produces. -/
theorem C10_exceptions_become_zero (e : PyDateVal) (t : Date) :
    (∀ msg, days_remaining_try e t = .error msg → get_days_remaining e t = 0) ∧
    get_days_remaining .other t = 0 ∧
    get_days_remaining .other t = get_days_remaining (.date t) t := by
  refine ⟨fun msg hmsg => ?_, rfl, ?_⟩
  · rw [get_days_remaining, hmsg]
  · simp [get_days_remaining, days_remaining_try]

/-- Claim C10 (witness). -/
theorem C10_exceptions_become_zero_witness :
    get_days_remaining .other ⟨2024, 1, 1⟩ = 0 :=
  (C10_exceptions_become_zero .other ⟨2024, 1, 1⟩).1 "TypeError" rfl

/-- Claim C5 (counterexample).  `referenceNow` is not caller-supplied:
the code reads `datetime.now().date()` itself, so the result depends
on the ambient wall-clock date — the same expiry argument yields
different integers under different ambient dates. -/
theorem C5_counterexample :
    get_days_remaining (.date ⟨2024, 1, 1⟩) ⟨2024, 1, 5⟩ ≠
      get_days_remaining (.date ⟨2024, 1, 1⟩) ⟨2024, 1, 6⟩ := by
  decide

/-- Claim C5 (amended).  `get_days_remaining` is a deterministic
function of the expiry argument and the ambient current date, but it
is not independent of the wall clock: shifting the ambient date shifts
the result by exactly the opposite amount.  (There is no `referenceNow`
parameter in the code; the second argument below is the ambient
`datetime.now().date()` made explicit.) -/
theorem C5_deterministic_in_expiry_and_ambient_date (e n1 n2 : Date) :
    get_days_remaining (.date e) n1 - get_days_remaining (.date e) n2 =
      (toOrdinal n2 : Int) - (toOrdinal n1 : Int) := by
  simp only [get_days_remaining, days_remaining_try]
  ring

/-- Claim C5 (witness for the amended theorem). -/
theorem C5_deterministic_in_expiry_and_ambient_date_witness :
    get_days_remaining (.date ⟨2024, 1, 1⟩) ⟨2024, 1, 5⟩ -
        get_days_remaining (.date ⟨2024, 1, 1⟩) ⟨2024, 1, 6⟩ =
      (toOrdinal ⟨2024, 1, 6⟩ : Int) - (toOrdinal ⟨2024, 1, 5⟩ : Int) :=
  C5_deterministic_in_expiry_and_ambient_date ⟨2024, 1, 1⟩ ⟨2024, 1, 5⟩ ⟨2024, 1, 6⟩

theorem select_foldl_keep_best (cs : List DateInfo) (best : DateInfo)
    (h : ∀ c ∈ cs, c.confidence ≤ best.confidence) :
    cs.foldl (fun b y => if b.confidence < y.confidence then y else b) best = best := by
  induction cs with
  | nil => rfl
  | cons c cs ih =>
      rw [List.foldl_cons, if_neg (not_lt.mpr (h c (List.mem_cons_self c cs)))]
      exact ih fun c' hc' => h c' (List.mem_cons_of_mem c hc')

/-- Claim C2 (counterexample).  Two candidates with equal confidence
0.8 — one from the bare numeric fragment `2024/01/15` (10 characters)
and one from the labelled fragment `生产日期:2024/1/15` (14
characters) — are both produced by the extractor with confidence 0.8,
yet `max(dates, key=...)` keeps the FIRST maximal element, so with the
10-character candidate listed first it is selected, not the
14-character one the claim requires. -/
theorem C2_counterexample :
    candidate_of_match "2024/01/15" (.tuple [[2,0,2,4], [0,1], [1,5]]) =
      some { date := some ⟨2024, 1, 15⟩, shelf_life_months := none,
             type := .production_date, text := "2024/01/15",
             confidence := Rat.mk' 4 5 } ∧
    candidate_of_match "生产日期:2024/1/15" (.tuple [[2,0,2,4], [1], [1,5]]) =
      some { date := some ⟨2024, 1, 15⟩, shelf_life_months := none,
             type := .production_date, text := "生产日期:2024/1/15",
             confidence := Rat.mk' 4 5 } ∧
    ("2024/01/15" : String).length = 10 ∧
    ("生产日期:2024/1/15" : String).length = 14 ∧
    select_best_date
        [ { date := some ⟨2024, 1, 15⟩, shelf_life_months := none,
            type := .production_date, text := "2024/01/15",
            confidence := Rat.mk' 4 5 },
          { date := some ⟨2024, 1, 15⟩, shelf_life_months := none,
            type := .production_date, text := "生产日期:2024/1/15",
            confidence := Rat.mk' 4 5 } ] =
      some { date := some ⟨2024, 1, 15⟩, shelf_life_months := none,
             type := .production_date, text := "2024/01/15",
             confidence := Rat.mk' 4 5 } := by
  decide

/-- Claim C2 (amended).  On ties `recognize_date`'s selection
(`max` with a confidence key) keeps the candidate that appears
earliest in the candidate list; the length of the matched text plays
no role.  Whenever the first candidate's confidence is at least that
of every later candidate — in particular on an exact tie — the first
candidate is selected. -/
theorem C2_first_listed_wins_on_ties (c1 : DateInfo) (cs : List DateInfo)
    (h : ∀ c ∈ cs, c.confidence ≤ c1.confidence) :
    select_best_date (c1 :: cs) = some c1 := by
  rw [select_best_date, select_foldl_keep_best cs c1 h]

/-- Claim C2 (witness for the amended theorem). -/
theorem C2_first_listed_wins_on_ties_witness :
    select_best_date
        [ { date := some ⟨2024, 1, 15⟩, shelf_life_months := none,
            type := .production_date, text := "2024/01/15",
            confidence := Rat.mk' 4 5 },
          { date := some ⟨2024, 1, 15⟩, shelf_life_months := none,
            type := .production_date, text := "生产日期:2024/1/15",
            confidence := Rat.mk' 4 5 } ] =
      some { date := some ⟨2024, 1, 15⟩, shelf_life_months := none,
             type := .production_date, text := "2024/01/15",
             confidence := Rat.mk' 4 5 } :=
  C2_first_listed_wins_on_ties _ _ (by decide)

theorem hasSemanticLabel_groupCount (p : PatternId)
    (hp : hasSemanticLabel p = true) : groupCount p = 3 := by
  cases p <;> simp [hasSemanticLabel, groupCount] at hp ⊢

theorem findallWF_three_shape (p : PatternId) (m : PyMatch)
    (hp : groupCount p = 3) (hw : findallWF p m = true) :
    ∃ a b c, m = .tuple [a, b, c] := by
  cases p <;> simp only [groupCount] at hp <;> try omega
  all_goals
    cases m with
    | str s => simp [findallWF] at hw
    | tuple gs =>
        rcases gs with _ | ⟨a, _ | ⟨b, _ | ⟨c, _ | ⟨d, tl⟩⟩⟩⟩
        · simp [findallWF] at hw
        · simp [findallWF] at hw
        · simp [findallWF] at hw
        · exact ⟨a, b, c, rfl⟩
        · simp [findallWF] at hw

theorem findallWF_shelf_shape (m : PyMatch)
    (hw : findallWF .shelfLifeMonths m = true) :
    ∃ s, m = .str s ∧ (s.length = 1 ∨ s.length = 2) := by
  cases m with
  | tuple gs =>
      rcases gs with _ | ⟨a, _ | ⟨b, _ | ⟨c, _ | ⟨d, tl⟩⟩⟩⟩
      · simp [findallWF] at hw
      · simp [findallWF] at hw
      · simp [findallWF] at hw
      · simp [findallWF, groupCount] at hw
      · simp [findallWF] at hw
  | str s =>
      refine ⟨s, rfl, ?_⟩
      simp only [findallWF, groupWF, Bool.and_eq_true, decide_eq_true_eq] at hw
      omega

theorem candidate_conf_full (text : String) (a b c : List Nat) (cand : DateInfo)
    (h : candidate_of_match text (.tuple [a, b, c]) = some cand) :
    cand.confidence = Rat.mk' 4 5 := by
  have h2 : (mkDate (pyIntOfDigits a) (pyIntOfDigits b) (pyIntOfDigits c)).map
      (fun dt => { date := some dt, shelf_life_months := none,
                   type := .production_date, text := text,
                   confidence := Rat.mk' 4 5 : DateInfo }) = some cand := h
  obtain ⟨dt, _, hc⟩ := Option.map_eq_some'.mp h2
  rw [← hc]

theorem candidate_conf_ym (text : String) (a b : Nat) (cand : DateInfo)
    (h : candidate_of_match text (.str [a, b]) = some cand) :
    cand.confidence = Rat.mk' 3 5 := by
  have h2 : (mkDate a b 1).map
      (fun dt => { date := some dt, shelf_life_months := none,
                   type := .production_date, text := text,
                   confidence := Rat.mk' 3 5 : DateInfo }) = some cand := h
  obtain ⟨dt, _, hc⟩ := Option.map_eq_some'.mp h2
  rw [← hc]

theorem candidate_conf_single (text : String) (a : Nat) (cand : DateInfo)
    (h : candidate_of_match text (.str [a]) = some cand) :
    cand.confidence = Rat.mk' 7 10 := by
  have h2 : some { date := none, shelf_life_months := some a,
                   type := .shelf_life, text := text,
                   confidence := Rat.mk' 7 10 : DateInfo } = some cand := h
  rw [← Option.some_inj.mp h2]

theorem candidate_conf_cases (text : String) (m : PyMatch) (cand : DateInfo)
    (h : candidate_of_match text m = some cand) :
    cand.confidence = Rat.mk' 4 5 ∨ cand.confidence = Rat.mk' 3 5 ∨
      cand.confidence = Rat.mk' 7 10 := by
  cases m with
  | tuple gs =>
      rcases gs with _ | ⟨a, _ | ⟨b, _ | ⟨c, _ | ⟨d, tl⟩⟩⟩⟩
      · exact Option.noConfusion h
      · right; right
        have h2 : some { date := none, shelf_life_months := some (pyIntOfDigits a),
                         type := .shelf_life, text := text,
                         confidence := Rat.mk' 7 10 : DateInfo } = some cand := h
        rw [← Option.some_inj.mp h2]
      · right; left
        have h2 : (mkDate (pyIntOfDigits a) (pyIntOfDigits b) 1).map
            (fun dt => { date := some dt, shelf_life_months := none,
                         type := .production_date, text := text,
                         confidence := Rat.mk' 3 5 : DateInfo }) = some cand := h
        obtain ⟨dt, _, hc⟩ := Option.map_eq_some'.mp h2
        rw [← hc]
      · exact .inl (candidate_conf_full text a b c cand h)
      · exact Option.noConfusion h
  | str s =>
      rcases s with _ | ⟨a, _ | ⟨b, _ | ⟨c, _ | ⟨d, tl⟩⟩⟩⟩
      · exact Option.noConfusion h
      · exact .inr (.inr (candidate_conf_single text a cand h))
      · exact .inr (.inl (candidate_conf_ym text a b cand h))
      · left
        have h2 : (mkDate a b c).map
            (fun dt => { date := some dt, shelf_life_months := none,
                         type := .production_date, text := text,
                         confidence := Rat.mk' 4 5 : DateInfo }) = some cand := h
        obtain ⟨dt, _, hc⟩ := Option.map_eq_some'.mp h2
        rw [← hc]
      · exact Option.noConfusion h

/-- Claim C8 (counterexample).  A candidate from a labelled pattern
(生产日期: prefix) and a candidate from the bare numeric full-date
pattern get the SAME confidence 0.8 — the code assigns confidence by
the number of matched groups (3 groups ⇒ 0.8) with no labelled-pattern
bonus — so the claimed strict inequality fails. -/
theorem C8_counterexample :
    findallWF .prodLabelColon (.tuple [[2,0,2,4], [0,1], [1,5]]) = true ∧
    findallWF .numericFull (.tuple [[2,0,2,4], [0,1], [1,5]]) = true ∧
    hasSemanticLabel .prodLabelColon = true ∧
    hasSemanticLabel .numericFull = false ∧
    candidate_of_match "生产日期:2024-01-15" (.tuple [[2,0,2,4], [0,1], [1,5]]) =
      some { date := some ⟨2024, 1, 15⟩, shelf_life_months := none,
             type := .production_date, text := "生产日期:2024-01-15",
             confidence := Rat.mk' 4 5 } ∧
    candidate_of_match "2024-01-15" (.tuple [[2,0,2,4], [0,1], [1,5]]) =
      some { date := some ⟨2024, 1, 15⟩, shelf_life_months := none,
             type := .production_date, text := "2024-01-15",
             confidence := Rat.mk' 4 5 } ∧
    ¬ ((Rat.mk' 4 5 : ℚ) > Rat.mk' 4 5) := by
  decide

/-- Claim C8 (amended).  Candidates from labelled patterns and from
the bare numeric full-date pattern all get confidence 0.8 — equal, not
strictly ordered.  A well-formed single-field month-count match gets
0.7 (a single digit, a shelf-life candidate) or 0.6 (two digits,
which the code misreads as a year-month date because `re.findall`
returns a plain string for a one-group regex and `len(match)` counts
its characters); both are strictly below 0.8.  Every candidate the
extractor produces has confidence in [0, 1]. -/
theorem C8_confidence_ordering :
    (∀ (p : PatternId) (text : String) (m : PyMatch) (c : DateInfo),
        hasSemanticLabel p = true → findallWF p m = true →
        candidate_of_match text m = some c → c.confidence = Rat.mk' 4 5) ∧
    (∀ (text : String) (m : PyMatch) (c : DateInfo),
        findallWF .numericFull m = true →
        candidate_of_match text m = some c → c.confidence = Rat.mk' 4 5) ∧
    (∀ (text : String) (m : PyMatch) (c : DateInfo),
        findallWF .shelfLifeMonths m = true →
        candidate_of_match text m = some c →
        c.confidence = Rat.mk' 7 10 ∨ c.confidence = Rat.mk' 3 5) ∧
    (∀ (text : String) (m : PyMatch) (c : DateInfo),
        candidate_of_match text m = some c →
        0 ≤ c.confidence ∧ c.confidence ≤ 1) ∧
    (Rat.mk' 7 10 : ℚ) < Rat.mk' 4 5 ∧ (Rat.mk' 3 5 : ℚ) < Rat.mk' 7 10 := by
  refine ⟨?_, ?_, ?_, ?_, by decide, by decide⟩
  · intro p text m c hp hw h
    obtain ⟨a, b, g, rfl⟩ :=
      findallWF_three_shape p m (hasSemanticLabel_groupCount p hp) hw
    exact candidate_conf_full text a b g c h
  · intro text m c hw h
    obtain ⟨a, b, g, rfl⟩ := findallWF_three_shape .numericFull m rfl hw
    exact candidate_conf_full text a b g c h
  · intro text m c hw h
    obtain ⟨s, rfl, hlen⟩ := findallWF_shelf_shape m hw
    rcases hlen with h1 | h2
    · obtain ⟨a, rfl⟩ : ∃ a, s = [a] := by
        rcases s with _ | ⟨a, _ | _⟩ <;> simp at h1
        exact ⟨a, rfl⟩
      exact .inl (candidate_conf_single text a c h)
    · obtain ⟨a, b, rfl⟩ : ∃ a b, s = [a, b] := by
        rcases s with _ | ⟨a, _ | ⟨b, _ | _⟩⟩ <;> simp at h2
        exact ⟨a, b, rfl⟩
      exact .inr (candidate_conf_ym text a b c h)
  · intro text m c h
    rcases candidate_conf_cases text m c h with hc | hc | hc <;> rw [hc] <;>
      exact ⟨by decide, by decide⟩

/-- Claim C8 (witness for the amended theorem). -/
theorem C8_confidence_ordering_witness :
    ({ date := some ⟨2024, 1, 15⟩, shelf_life_months := none,
       type := .production_date, text := "生产日期:2024-01-15",
       confidence := Rat.mk' 4 5 : DateInfo }).confidence = Rat.mk' 4 5 ∧
    ({ date := some ⟨2024, 1, 15⟩, shelf_life_months := none,
       type := .production_date, text := "2024-01-15",
       confidence := Rat.mk' 4 5 : DateInfo }).confidence = Rat.mk' 4 5 ∧
    (({ date := none, shelf_life_months := some 6, type := .shelf_life,
        text := "保质期：6个月", confidence := Rat.mk' 7 10 : DateInfo }).confidence =
          Rat.mk' 7 10 ∨
      ({ date := none, shelf_life_months := some 6, type := .shelf_life,
         text := "保质期：6个月", confidence := Rat.mk' 7 10 : DateInfo }).confidence =
          Rat.mk' 3 5) ∧
    (0 ≤ ({ date := none, shelf_life_months := some 6, type := .shelf_life,
            text := "保质期：6个月",
            confidence := Rat.mk' 7 10 : DateInfo }).confidence ∧
      ({ date := none, shelf_life_months := some 6, type := .shelf_life,
         text := "保质期：6个月",
         confidence := Rat.mk' 7 10 : DateInfo }).confidence ≤ 1) :=
  ⟨C8_confidence_ordering.1 .prodLabelColon "生产日期:2024-01-15"
      (.tuple [[2,0,2,4], [0,1], [1,5]]) _ (by decide) (by decide) (by decide),
   C8_confidence_ordering.2.1 "2024-01-15"
      (.tuple [[2,0,2,4], [0,1], [1,5]]) _ (by decide) (by decide),
   C8_confidence_ordering.2.2.1 "保质期：6个月" (.str [6]) _ (by decide) (by decide),
   C8_confidence_ordering.2.2.2.1 "保质期：6个月" (.str [6]) _ (by decide)⟩

/-- Claim C6: for every matched digit combination whose month is not
in [1,12] or whose day is out of range for that month and year, both
the Candidate Extractor and the typed-date parser reject the
combination.  In `parse_date_patterns` the `datetime` constructor
raises `ValueError`, the surrounding `except ValueError: continue`
drops the match locally, and no exception escapes (the embedded
extractor is a total function returning `none` for the dropped match);
`OCRProcessor.parse_date` only ever returns calendar-valid dates, and
rejects `2024-02-30` and `2023-04-31` outright. -/
theorem C6_invalid_dates_rejected :
    (∀ (text : String) (gy gm gd : List Nat),
        isValidDate (pyIntOfDigits gy) (pyIntOfDigits gm) (pyIntOfDigits gd) = false →
        candidate_of_match text (.tuple [gy, gm, gd]) = none) ∧
    (∀ (text : String) (gy gm : List Nat),
        isValidDate (pyIntOfDigits gy) (pyIntOfDigits gm) 1 = false →
        candidate_of_match text (.tuple [gy, gm]) = none) ∧
    (∀ (s : String) (dt : Date), parse_date s = .ok dt → validDate dt = true) ∧
    parse_date "2024-02-30" = .error "无法解析日期: 2024-02-30" ∧
    parse_date "2023-04-31" = .error "无法解析日期: 2023-04-31" := by
  refine ⟨?_, ?_, ?_, by decide, by decide⟩
  · intro text gy gm gd h
    show (mkDate (pyIntOfDigits gy) (pyIntOfDigits gm) (pyIntOfDigits gd)).map
        (fun dt => { date := some dt, shelf_life_months := none,
                     type := .production_date, text := text,
                     confidence := Rat.mk' 4 5 : DateInfo }) = none
    rw [mkDate, if_neg (by simp [h])]
    rfl
  · intro text gy gm h
    show (mkDate (pyIntOfDigits gy) (pyIntOfDigits gm) 1).map
        (fun dt => { date := some dt, shelf_life_months := none,
                     type := .production_date, text := text,
                     confidence := Rat.mk' 3 5 : DateInfo }) = none
    rw [mkDate, if_neg (by simp [h])]
    rfl
  · intro s dt h
    exact parse_date_ok_valid s dt h

/-- Claim C6 (witness). -/
theorem C6_invalid_dates_rejected_witness :
    candidate_of_match "2024-02-30" (.tuple [[2,0,2,4], [0,2], [3,0]]) = none ∧
    candidate_of_match "2024-13" (.tuple [[2,0,2,4], [1,3]]) = none ∧
    validDate ⟨2024, 1, 15⟩ = true :=
  ⟨C6_invalid_dates_rejected.1 "2024-02-30" [2,0,2,4] [0,2] [3,0] (by decide),
   C6_invalid_dates_rejected.2.1 "2024-13" [2,0,2,4] [1,3] (by decide),
   C6_invalid_dates_rejected.2.2.1 "2024-01-15" ⟨2024, 1, 15⟩ (by decide)⟩

/-- Claim C4: the value `get_days_remaining` computes for a date
argument is the signed whole-day difference
`expiry.toordinal() - today.toordinal()`; it is negative whenever the
expiry date is chronologically before the ambient reference date,
zero when they are equal, and in particular
`expiry = 2024-01-01` against `now = 2024-01-05` gives `-4`. -/
theorem C4_days_remaining_signed_difference (e now : Date)
    (he : validDate e = true) (hn : validDate now = true) :
    get_days_remaining (.date e) now = (toOrdinal e : Int) - (toOrdinal now : Int) ∧
    (dateLexLt e now → get_days_remaining (.date e) now < 0) ∧
    (e = now → get_days_remaining (.date e) now = 0) ∧
    get_days_remaining (.date ⟨2024, 1, 1⟩) ⟨2024, 1, 5⟩ = -4 := by
  refine ⟨rfl, fun hlt => ?_, fun heq => ?_, by decide⟩
  · have hord := toOrdinal_strict_mono e now he hn hlt
    show (toOrdinal e : Int) - (toOrdinal now : Int) < 0
    omega
  · rw [heq]
    show (toOrdinal now : Int) - (toOrdinal now : Int) = 0
    omega

/-- Claim C4 (witness). -/
theorem C4_days_remaining_signed_difference_witness :
    get_days_remaining (.date ⟨2024, 1, 1⟩) ⟨2024, 1, 5⟩ =
      (toOrdinal ⟨2024, 1, 1⟩ : Int) - (toOrdinal ⟨2024, 1, 5⟩ : Int) ∧
    get_days_remaining (.date ⟨2024, 1, 1⟩) ⟨2024, 1, 5⟩ < 0 :=
  ⟨(C4_days_remaining_signed_difference ⟨2024, 1, 1⟩ ⟨2024, 1, 5⟩
      (by decide) (by decide)).1,
   (C4_days_remaining_signed_difference ⟨2024, 1, 1⟩ ⟨2024, 1, 5⟩
      (by decide) (by decide)).2.1 (by decide)⟩

/-- Claim C7 (counterexample).  The claim quantifies over every valid
calendar date, but for years below 1000 the unpadded f-string breaks
the round trip: `f"{5}-{3:02d}-{1:02d}" = "5-03-01"` matches no
strptime format (`%Y` requires exactly four digits), and the
digit-group fallback then takes the THIRD group as the year and the
first as the day, returning 0001-03-05 instead of 0005-03-01. -/
theorem C7_counterexample :
    isoFormat 5 3 1 = "5-03-01" ∧
    parse_date (isoFormat 5 3 1) = .ok ⟨1, 3, 5⟩ ∧
    (⟨1, 3, 5⟩ : Date) ≠ ⟨5, 3, 1⟩ := by
  decide

/-- Claim C7 (amended).  For every valid calendar date whose year has
four digits (`1000 ≤ year ≤ 9999`, with `1 ≤ month ≤ 12` and `day`
valid for that month and year), parsing the zero-padded ISO string
`f"{year}-{month:02d}-{day:02d}"` with `OCRProcessor.parse_date`
succeeds via the first strptime format `%Y-%m-%d` and round-trips to
exactly the same `(year, month, day)`. -/
theorem C7_roundtrip_four_digit_years (y m d : Nat)
    (hy1 : 1000 ≤ y) (hy2 : y ≤ 9999) (hm1 : 1 ≤ m) (hm2 : m ≤ 12)
    (hd1 : 1 ≤ d) (hd2 : d ≤ daysInMonth y m) :
    parse_date (isoFormat y m d) = .ok ⟨y, m, d⟩ := by
  have hd31 : d ≤ 31 := Nat.le_trans hd2 (daysInMonth_le_31 y m)
  have hdigits : natDecimalDigits y = [y/1000, y/100%10, y/10%10, y%10] :=
    (natDecimalDigits_eq_spec y).trans (decimalDigitsSpec_four y hy1 hy2)
  have hpm : pad2 m = [m/10, m%10] := pad2_eq m (by omega)
  have hpd : pad2 d = [d/10, d%10] := pad2_eq d (by omega)
  have hiso : (isoFormat y m d).data =
      [Nat.digitChar (y/1000), Nat.digitChar (y/100%10), Nat.digitChar (y/10%10),
       Nat.digitChar (y%10), '-', Nat.digitChar (m/10), Nat.digitChar (m%10), '-',
       Nat.digitChar (d/10), Nat.digitChar (d%10)] := by
    simp [isoFormat, digitsToChars, hdigits, hpm, hpd]
  have hyv : y/1000 * 1000 + y/100%10 * 100 + y/10%10 * 10 + y%10 = y := by omega
  have hmv : m/10 * 10 + m%10 = m := by omega
  have hdv : d/10 * 10 + d%10 = d := by omega
  have hrun : runFmt [.year4, .lit '-', .month2, .lit '-', .day2]
      ((isoFormat y m d).data) (1900, 1, 1) = some (y, m, d) := by
    rw [hiso]
    simp only [runFmt,
      isDigit_digitChar _ (show y/1000 < 10 by omega),
      isDigit_digitChar _ (show y/100%10 < 10 by omega),
      isDigit_digitChar _ (show y/10%10 < 10 by omega),
      isDigit_digitChar _ (show y%10 < 10 by omega),
      charVal_digitChar _ (show y/1000 < 10 by omega),
      charVal_digitChar _ (show y/100%10 < 10 by omega),
      charVal_digitChar _ (show y/10%10 < 10 by omega),
      charVal_digitChar _ (show y%10 < 10 by omega),
      charVal_digitChar _ (show m/10 < 10 by omega),
      charVal_digitChar _ (show m%10 < 10 by omega),
      charVal_digitChar _ (show d/10 < 10 by omega),
      charVal_digitChar _ (show d%10 < 10 by omega),
      month2ok_digits m hm1 hm2,
      day2ok_digits d hd1 hd31,
      hyv, hmv, hdv,
      Bool.and_true, Bool.true_and, if_true, Option.orElse]
  have hvalid : isValidDate y m d = true := by
    simp only [isValidDate, Bool.and_eq_true, decide_eq_true_eq]
    omega
  have hstr : strptime [.year4, .lit '-', .month2, .lit '-', .day2] (isoFormat y m d) =
      some ⟨y, m, d⟩ := by
    rw [strptime, hrun]
    show mkDate y m d = some ⟨y, m, d⟩
    rw [mkDate, if_pos hvalid]
  have htry : tryFormats strptime_formats (isoFormat y m d) = some ⟨y, m, d⟩ := by
    rw [strptime_formats, tryFormats, hstr]
  rw [parse_date, htry]

/-- Claim C7 (witness for the amended theorem). -/
theorem C7_roundtrip_four_digit_years_witness :
    parse_date (isoFormat 2024 1 15) = .ok ⟨2024, 1, 15⟩ :=
  C7_roundtrip_four_digit_years 2024 1 15 (by decide) (by decide) (by decide)
    (by decide) (by decide) (by decide)

end ExpiryTracker
